import Mathlib

/-
Verification of the agent-tools repository (calendar / communication / youtube
tool integrations) against its natural-language specification.

The definitions below are a shallow embedding of the Python source:

* `commRetryGo` / `commWithRetry`  embed `with_retry` from
  `src/communication/core.py` (lines 25-59);
* `calRetryGo` / `calWithRetry`    embed `with_retry` from
  `src/calendar/core.py` (lines 30-57).

External effects (the wrapped call, `time.sleep`) are made explicit: the
wrapped operation is a function `f : Nat -> CallOutcome α` giving the outcome
of each successive invocation (invocation 0, 1, ...), and the wrapper is a
pure function returning the final outcome together with the number of
invocations performed and the chronological list of sleep durations.
Delays are modelled as rationals (the Python floats involved -- products of
the base delay with powers of two -- are exact).
-/

namespace AgentTools

/-- A Python exception, as classified by the two `with_retry` wrappers:
`requests.HTTPError` / `googleapiclient HttpError` carrying a status code
(`status 0` models a `requests.HTTPError` with no `response` attribute),
`requests.ConnectionError` / `requests.Timeout`, or any other exception. -/
inductive RetryErr where
  | httpError (status : Nat)
  | connError
  | otherError
deriving DecidableEq

/-- Outcome of a single invocation of the wrapped operation: a returned
value, or a raised exception. -/
inductive CallOutcome (α : Type) where
  | ok (v : α)
  | err (e : RetryErr)

/-- Observable behaviour of one run of a retry wrapper: the final result
(value returned or exception re-raised), the number of invocations of the
wrapped operation, and the chronological list of `time.sleep` durations. -/
structure RetryResult (α : Type) where
  result : Except RetryErr α
  calls : Nat
  sleeps : List ℚ

/-- `src/communication/core.py` line 35: the non-retryable status codes
`(400, 401, 403, 422)`. -/
def commNonRetryable : List Nat := [400, 401, 403, 422]

/-- `src/calendar/core.py` line 40: the non-retryable status codes
`(400, 401, 403, 404)`. -/
def calNonRetryable : List Nat := [400, 401, 403, 404]

/-- Record one `time.sleep d` happening before the rest of the run. -/
def addSleep {α : Type} (d : ℚ) (r : RetryResult α) : RetryResult α :=
  ⟨r.result, r.calls, d :: r.sleeps⟩

/-- The `while True` loop of `with_retry` in `src/communication/core.py`
(lines 28-57).  `remaining` is the number of retries still allowed
(`max_retries - retries` in the source: the source raises when the
incremented `retries` exceeds `max_retries`, i.e. exactly when
`remaining = 0` here); `attempt` is the 0-based index of the current
invocation, which also equals the source's `retries` counter at the top of
the loop body.  The sleep before re-attempt `attempt+1` is
`delay * 2 ** (retries - 1) = delay * 2 ^ attempt` for the `HTTPError` and
`ConnectionError/Timeout` branches, and the constant `delay` for the
generic `except Exception` branch. -/
def commRetryGo {α : Type} (delay : ℚ) (f : Nat → CallOutcome α) :
    Nat → Nat → RetryResult α
  | remaining, attempt =>
    match f attempt with
    | .ok v => ⟨.ok v, attempt + 1, []⟩
    | .err (.httpError s) =>
      if s ∈ commNonRetryable then ⟨.error (.httpError s), attempt + 1, []⟩
      else
        match remaining with
        | 0 => ⟨.error (.httpError s), attempt + 1, []⟩
        | r + 1 => addSleep (delay * 2 ^ attempt) (commRetryGo delay f r (attempt + 1))
    | .err .connError =>
      match remaining with
      | 0 => ⟨.error .connError, attempt + 1, []⟩
      | r + 1 => addSleep (delay * 2 ^ attempt) (commRetryGo delay f r (attempt + 1))
    | .err .otherError =>
      match remaining with
      | 0 => ⟨.error .otherError, attempt + 1, []⟩
      | r + 1 => addSleep delay (commRetryGo delay f r (attempt + 1))

/-- `with_retry(max_retries, delay)` from `src/communication/core.py`,
applied to an operation whose successive invocations behave as `f`. -/
def commWithRetry {α : Type} (maxRetries : Nat) (delay : ℚ)
    (f : Nat → CallOutcome α) : RetryResult α :=
  commRetryGo delay f maxRetries 0

/-- The `while True` loop of `with_retry` in `src/calendar/core.py`
(lines 33-55).  Unlike the communication wrapper, this wrapper has only two
`except` branches: `HttpError` (status-code classification, exponential
delay) and the generic `except Exception` (constant delay).  A
connection/timeout error is not an `HttpError`, so it falls into the
generic branch; in this embedding both `.connError` and `.otherError`
therefore take the generic branch. -/
def calRetryGo {α : Type} (delay : ℚ) (f : Nat → CallOutcome α) :
    Nat → Nat → RetryResult α
  | remaining, attempt =>
    match f attempt with
    | .ok v => ⟨.ok v, attempt + 1, []⟩
    | .err (.httpError s) =>
      if s ∈ calNonRetryable then ⟨.error (.httpError s), attempt + 1, []⟩
      else
        match remaining with
        | 0 => ⟨.error (.httpError s), attempt + 1, []⟩
        | r + 1 => addSleep (delay * 2 ^ attempt) (calRetryGo delay f r (attempt + 1))
    | .err .connError =>
      match remaining with
      | 0 => ⟨.error .connError, attempt + 1, []⟩
      | r + 1 => addSleep delay (calRetryGo delay f r (attempt + 1))
    | .err .otherError =>
      match remaining with
      | 0 => ⟨.error .otherError, attempt + 1, []⟩
      | r + 1 => addSleep delay (calRetryGo delay f r (attempt + 1))

/-- `with_retry(max_retries, delay)` from `src/calendar/core.py`. -/
def calWithRetry {α : Type} (maxRetries : Nat) (delay : ℚ)
    (f : Nat → CallOutcome α) : RetryResult α :=
  calRetryGo delay f maxRetries 0

lemma commGo_http_const {α : Type} (delay : ℚ) (s : Nat)
    (hs : s ∉ commNonRetryable) (rem att : Nat) :
    commRetryGo delay (fun _ => (CallOutcome.err (RetryErr.httpError s) : CallOutcome α))
        rem att =
      ⟨.error (.httpError s), att + rem + 1,
        (List.range rem).map fun k => delay * 2 ^ (att + k)⟩ := by
  induction rem generalizing att with
  | zero => simp [commRetryGo, hs]
  | succ r ih =>
    have hexp : ∀ k, att + 1 + k = att + (k + 1) := by omega
    simp [commRetryGo, hs, addSleep, ih, List.range_succ_eq_map, List.map_map,
      Function.comp, hexp]

lemma commGo_conn_const {α : Type} (delay : ℚ) (rem att : Nat) :
    commRetryGo delay (fun _ => (CallOutcome.err RetryErr.connError : CallOutcome α))
        rem att =
      ⟨.error .connError, att + rem + 1,
        (List.range rem).map fun k => delay * 2 ^ (att + k)⟩ := by
  induction rem generalizing att with
  | zero => simp [commRetryGo]
  | succ r ih =>
    have hexp : ∀ k, att + 1 + k = att + (k + 1) := by omega
    simp [commRetryGo, addSleep, ih, List.range_succ_eq_map, List.map_map,
      Function.comp, hexp]

lemma commGo_other_const {α : Type} (delay : ℚ) (rem att : Nat) :
    commRetryGo delay (fun _ => (CallOutcome.err RetryErr.otherError : CallOutcome α))
        rem att =
      ⟨.error .otherError, att + rem + 1, List.replicate rem delay⟩ := by
  induction rem generalizing att with
  | zero => simp [commRetryGo]
  | succ r ih =>
    simp [commRetryGo, addSleep, ih, List.replicate_succ]
    omega

lemma calGo_http_const {α : Type} (delay : ℚ) (s : Nat)
    (hs : s ∉ calNonRetryable) (rem att : Nat) :
    calRetryGo delay (fun _ => (CallOutcome.err (RetryErr.httpError s) : CallOutcome α))
        rem att =
      ⟨.error (.httpError s), att + rem + 1,
        (List.range rem).map fun k => delay * 2 ^ (att + k)⟩ := by
  induction rem generalizing att with
  | zero => simp [calRetryGo, hs]
  | succ r ih =>
    have hexp : ∀ k, att + 1 + k = att + (k + 1) := by omega
    simp [calRetryGo, hs, addSleep, ih, List.range_succ_eq_map, List.map_map,
      Function.comp, hexp]

lemma calGo_conn_const {α : Type} (delay : ℚ) (rem att : Nat) :
    calRetryGo delay (fun _ => (CallOutcome.err RetryErr.connError : CallOutcome α))
        rem att =
      ⟨.error .connError, att + rem + 1, List.replicate rem delay⟩ := by
  induction rem generalizing att with
  | zero => simp [calRetryGo]
  | succ r ih =>
    simp [calRetryGo, addSleep, ih, List.replicate_succ]
    omega

lemma calGo_other_const {α : Type} (delay : ℚ) (rem att : Nat) :
    calRetryGo delay (fun _ => (CallOutcome.err RetryErr.otherError : CallOutcome α))
        rem att =
      ⟨.error .otherError, att + rem + 1, List.replicate rem delay⟩ := by
  induction rem generalizing att with
  | zero => simp [calRetryGo]
  | succ r ih =>
    simp [calRetryGo, addSleep, ih, List.replicate_succ]
    omega

/-- C1: for every operation wrapped by `with_retry`, an HTTP error whose
status code is in the domain's non-retryable set (calendar: 400/401/403/404;
communication: 400/401/403/422) is re-raised to the caller immediately: the
wrapped operation is invoked exactly once, zero sleep calls occur, and no
retry is consumed. -/
theorem C1_nonretryable_immediate {α : Type} (R : Nat) (D : ℚ)
    (f : Nat → CallOutcome α) (s : Nat)
    (h0 : f 0 = CallOutcome.err (RetryErr.httpError s)) :
    (s ∈ commNonRetryable →
      commWithRetry R D f = ⟨Except.error (RetryErr.httpError s), 1, []⟩) ∧
    (s ∈ calNonRetryable →
      calWithRetry R D f = ⟨Except.error (RetryErr.httpError s), 1, []⟩) := by
  constructor
  · intro hmem
    cases R <;> simp [commWithRetry, commRetryGo, h0, hmem]
  · intro hmem
    cases R <;> simp [calWithRetry, calRetryGo, h0, hmem]

theorem C1_nonretryable_immediate_witness :
    commWithRetry 3 1 (fun _ => (CallOutcome.err (RetryErr.httpError 422) : CallOutcome Nat)) =
      ⟨Except.error (RetryErr.httpError 422), 1, []⟩ ∧
    calWithRetry 3 1 (fun _ => (CallOutcome.err (RetryErr.httpError 404) : CallOutcome Nat)) =
      ⟨Except.error (RetryErr.httpError 404), 1, []⟩ :=
  ⟨(C1_nonretryable_immediate 3 1 _ 422 rfl).1 (by decide),
   (C1_nonretryable_immediate 3 1 _ 404 rfl).2 (by decide)⟩

/-- C2 counterexample: the claim states that a network connection/timeout
failure sleeps `D * 2 ^ (k-1)` before the k-th re-attempt identically in the
calendar wrapper and the communication wrapper.  In the calendar wrapper a
connection error is not an `HttpError`, so it falls into the generic
`except Exception` branch with constant delay: with `D = 1`, `R = 2` and
every invocation raising a connection error, the calendar wrapper sleeps
`[1, 1]`, not the claimed `[1 * 2 ^ 0, 1 * 2 ^ 1] = [1, 2]` (which the
communication wrapper does sleep). -/
theorem C2_schedule_counterexample :
    (calWithRetry 2 1 (fun _ => (CallOutcome.err RetryErr.connError : CallOutcome Nat))).sleeps
        = [1, 1] ∧
    (calWithRetry 2 1 (fun _ => (CallOutcome.err RetryErr.connError : CallOutcome Nat))).sleeps
        ≠ [1 * 2 ^ 0, 1 * 2 ^ 1] ∧
    (commWithRetry 2 1 (fun _ => (CallOutcome.err RetryErr.connError : CallOutcome Nat))).sleeps
        = [1 * 2 ^ 0, 1 * 2 ^ 1] := by
  refine ⟨by simp [calWithRetry, calRetryGo, addSleep], ?_, ?_⟩
  · simp [calWithRetry, calRetryGo, addSleep]
  · simp [commWithRetry, commRetryGo, addSleep]

/-- C2 (amended): for every run of `R` retryable failures followed by
re-raising, both wrappers make `R + 1` invocations and `R` sleeps and then
re-raise the last error; the k-th sleep (1-based) is `D * 2 ^ (k-1)` for a
retryable HTTP-status failure in both wrappers and for a connection/timeout
failure in the communication wrapper, while a generic (other-exception)
failure sleeps the constant `D` in both wrappers; a connection/timeout
failure in the calendar wrapper falls into the generic `except Exception`
branch and also sleeps the constant `D` (this last point is where the
original claim's "applied identically" fails). -/
theorem C2_retry_schedule {α : Type} (R : Nat) (D : ℚ) :
    (∀ s, s ∉ commNonRetryable →
      commWithRetry R D (fun _ => (CallOutcome.err (RetryErr.httpError s) : CallOutcome α)) =
        ⟨Except.error (RetryErr.httpError s), R + 1,
          (List.range R).map fun k => D * 2 ^ k⟩) ∧
    (commWithRetry R D (fun _ => (CallOutcome.err RetryErr.connError : CallOutcome α)) =
        ⟨Except.error RetryErr.connError, R + 1,
          (List.range R).map fun k => D * 2 ^ k⟩) ∧
    (∀ s, s ∉ calNonRetryable →
      calWithRetry R D (fun _ => (CallOutcome.err (RetryErr.httpError s) : CallOutcome α)) =
        ⟨Except.error (RetryErr.httpError s), R + 1,
          (List.range R).map fun k => D * 2 ^ k⟩) ∧
    (commWithRetry R D (fun _ => (CallOutcome.err RetryErr.otherError : CallOutcome α)) =
        ⟨Except.error RetryErr.otherError, R + 1, List.replicate R D⟩) ∧
    (calWithRetry R D (fun _ => (CallOutcome.err RetryErr.otherError : CallOutcome α)) =
        ⟨Except.error RetryErr.otherError, R + 1, List.replicate R D⟩) ∧
    (calWithRetry R D (fun _ => (CallOutcome.err RetryErr.connError : CallOutcome α)) =
        ⟨Except.error RetryErr.connError, R + 1, List.replicate R D⟩) := by
  refine ⟨?_, ?_, ?_, ?_, ?_, ?_⟩
  · intro s hs
    simpa using commGo_http_const (α := α) D s hs R 0
  · simpa using commGo_conn_const (α := α) D R 0
  · intro s hs
    simpa using calGo_http_const (α := α) D s hs R 0
  · simpa using commGo_other_const (α := α) D R 0
  · simpa using calGo_other_const (α := α) D R 0
  · simpa using calGo_conn_const (α := α) D R 0

theorem C2_retry_schedule_witness :
    commWithRetry 2 1 (fun _ => (CallOutcome.err (RetryErr.httpError 500) : CallOutcome Nat)) =
      ⟨Except.error (RetryErr.httpError 500), 3, [1, 2]⟩ ∧
    calWithRetry 2 1 (fun _ => (CallOutcome.err (RetryErr.httpError 500) : CallOutcome Nat)) =
      ⟨Except.error (RetryErr.httpError 500), 3, [1, 2]⟩ := by
  constructor
  · have h := (C2_retry_schedule (α := Nat) 2 1).1 500 (by decide)
    simpa [List.range_succ] using h
  · have h := (C2_retry_schedule (α := Nat) 2 1).2.2.1 500 (by decide)
    simpa [List.range_succ] using h

/-
Phone number normalizer: `format_phone_number` from
`src/communication/core.py` (lines 113-126).  Strings are modelled as their
lists of characters; Python `str.isdigit()` is modelled as `Char.isDigit`
(the inputs of interest are ASCII).
-/

/-- The separator characters removed by `format_phone_number`
(`src/communication/core.py` line 116), in the order the source iterates
over them; note that the colon is among them. -/
def sepChars : List Char := [' ', '-', '(', ')', '.', '/', '\\', ':']

/-- Python `str.strip()`: remove leading and trailing whitespace. -/
def stripEnds (s : List Char) : List Char :=
  ((s.dropWhile Char.isWhitespace).reverse.dropWhile Char.isWhitespace).reverse

/-- The loop `for char in [...]: cleaned = cleaned.replace(char, "")`
(line 116-117): each separator character is removed everywhere. -/
def removeSeps (s : List Char) : List Char :=
  sepChars.foldl (fun acc c => acc.filter (fun ch => ch ≠ c)) s

/-- Python `cleaned.split(":")[-1]` (line 118): the substring after the
last colon (the whole string when there is no colon). -/
def afterLastColon (s : List Char) : List Char :=
  (s.reverse.takeWhile (fun ch => ch ≠ ':')).reverse

/-- Line 121: `if digits.startswith("00"): digits = digits[2:]`. -/
def dropDoubleZero (s : List Char) : List Char :=
  match s with
  | '0' :: '0' :: rest => rest
  | _ => s

/-- Line 119: `if cleaned.startswith("+"): cleaned = cleaned[1:]`. -/
def dropPlus (s : List Char) : List Char :=
  match s with
  | '+' :: rest => rest
  | _ => s

/-- `format_phone_number` from `src/communication/core.py` (lines 113-126),
on the character list of the input string: trim, remove separators, keep
the part after the last colon if a colon remains, strip one leading `+`,
keep only digits, drop one leading `00`, and map a digit-less result to the
empty string. -/
def format_phone_number (phone : List Char) : List Char :=
  if phone = [] then []
  else
    let cleaned0 := removeSeps (stripEnds phone)
    let cleaned1 := if ':' ∈ cleaned0 then stripEnds (afterLastColon cleaned0) else cleaned0
    let digits := dropDoubleZero ((dropPlus cleaned1).filter Char.isDigit)
    if digits = [] then [] else digits

lemma ws_not_digit {c : Char} (h : c.isWhitespace = true) : c.isDigit = false := by
  simp [Char.isWhitespace] at h
  rcases h with ((h1 | h1) | h1) | h1 <;> subst h1 <;> decide

lemma filter_digit_dropWhile_ws (s : List Char) :
    (s.dropWhile Char.isWhitespace).filter Char.isDigit = s.filter Char.isDigit := by
  induction s with
  | nil => simp
  | cons c rest ih =>
    by_cases h : c.isWhitespace = true
    · rw [List.dropWhile_cons_of_pos h, ih, List.filter_cons_of_neg]
      simp [ws_not_digit h]
    · rw [List.dropWhile_cons_of_neg]
      simp [h]

lemma stripEnds_filter_digit (s : List Char) :
    (stripEnds s).filter Char.isDigit = s.filter Char.isDigit := by
  unfold stripEnds
  rw [List.filter_reverse, filter_digit_dropWhile_ws, List.filter_reverse,
    filter_digit_dropWhile_ws, List.reverse_reverse]

lemma filter_digit_filter_ne (c : Char) (hc : c.isDigit = false) (s : List Char) :
    (s.filter (fun ch => ch ≠ c)).filter Char.isDigit = s.filter Char.isDigit := by
  induction s with
  | nil => rfl
  | cons a rest ih =>
    by_cases ha : a = c
    · subst ha
      rw [List.filter_cons_of_neg, List.filter_cons_of_neg, ih]
      · simp [hc]
      · simp
    · by_cases hd : a.isDigit = true
      · rw [List.filter_cons_of_pos, List.filter_cons_of_pos hd, List.filter_cons_of_pos hd, ih]
        simp [ha]
      · rw [List.filter_cons_of_pos, List.filter_cons_of_neg, List.filter_cons_of_neg, ih]
        · simp [hd]
        · simp [hd]
        · simp [ha]

lemma removeSeps_filter_digit (s : List Char) :
    (removeSeps s).filter Char.isDigit = s.filter Char.isDigit := by
  simp only [removeSeps, sepChars, List.foldl_cons, List.foldl_nil]
  rw [filter_digit_filter_ne _ (by decide), filter_digit_filter_ne _ (by decide),
    filter_digit_filter_ne _ (by decide), filter_digit_filter_ne _ (by decide),
    filter_digit_filter_ne _ (by decide), filter_digit_filter_ne _ (by decide),
    filter_digit_filter_ne _ (by decide), filter_digit_filter_ne _ (by decide)]

lemma colon_not_mem_removeSeps (s : List Char) : ':' ∉ removeSeps s := by
  simp only [removeSeps, sepChars, List.foldl_cons, List.foldl_nil]
  intro h
  have := List.of_mem_filter h
  simp at this

lemma dropPlus_filter_digit (s : List Char) :
    (dropPlus s).filter Char.isDigit = s.filter Char.isDigit := by
  unfold dropPlus
  split
  · rw [List.filter_cons_of_neg]
    decide
  · rfl

lemma format_phone_eq (phone : List Char) :
    format_phone_number phone = dropDoubleZero (phone.filter Char.isDigit) := by
  by_cases h0 : phone = []
  · subst h0
    simp [format_phone_number, dropDoubleZero]
  · simp only [format_phone_number, if_neg h0,
      if_neg (colon_not_mem_removeSeps (stripEnds phone)),
      dropPlus_filter_digit, removeSeps_filter_digit, stripEnds_filter_digit]
    by_cases hd : dropDoubleZero (phone.filter Char.isDigit) = []
    · rw [if_pos hd, hd]
    · rw [if_neg hd]

/-- C3 counterexample: the claim states that for an input containing a
colon, only the substring after the last colon is kept, so the worked
example `"+33 (0)6-12.34:56 78"` normalizes to `"5678"`.  In the source the
colon is itself one of the removed separator characters, so after separator
removal the string never contains a colon, the colon-split branch is dead
code, and the worked example normalizes to `"330612345678"`, not `"5678"`. -/
theorem C3_colon_counterexample :
    format_phone_number ("+33 (0)6-12.34:56 78".data) = "330612345678".data ∧
    format_phone_number ("+33 (0)6-12.34:56 78".data) ≠ "5678".data := by
  constructor <;> decide

/-- C3 (amended): the colon-split step never applies because the colon is
removed together with the other separators, so for every input the output
is exactly the input's digits with a single leading `00` removed
(stripping separators and a single leading `+` cannot change the digit
sequence); in particular `"06 12 34 56 78"` yields `"0612345678"`,
`"+33612345678"` yields `"33612345678"`, the claim's colon example
`"+33 (0)6-12.34:56 78"` yields `"330612345678"`, and an input with zero
digits yields the empty string. -/
theorem C3_phone_digits :
    (∀ phone : List Char,
      format_phone_number phone = dropDoubleZero (phone.filter Char.isDigit)) ∧
    format_phone_number ("06 12 34 56 78".data) = "0612345678".data ∧
    format_phone_number ("+33612345678".data) = "33612345678".data ∧
    format_phone_number ("+33 (0)6-12.34:56 78".data) = "330612345678".data ∧
    format_phone_number ("abc-def".data) = [] :=
  ⟨format_phone_eq, by decide, by decide, by decide, by decide⟩

/-
Calendar event update: `core_update_event` from `src/calendar/core.py`
(lines 154-184).  The provider is modelled by the result of the
`events().get(...)` call (`Except Nat Event`: an event, or a raised
`HttpError` with its status code) and by the `events().patch(...)` call
(`patchEvent : EventBody -> Event`, giving the provider's resulting event
for a patch body).  The returned `UpdateResult` records whether a patch
(write) call was issued and with which body.
-/

/-- The `updates` dict passed to `core_update_event`, restricted to its
observable shape: each of the five string-valued recognized keys is
`some v` when present (the source copies the value verbatim); `attendees`
is `some none` when the key is present with value `None` (the source's
`updates["attendees"] is not None` test) and `some (some l)` otherwise;
`otherKeys` stands for any unrecognized keys, which the source never
reads. -/
structure Updates where
  summary : Option String
  description : Option String
  location : Option String
  start_time : Option String
  end_time : Option String
  attendees : Option (Option (List String))
  otherKeys : List String
deriving DecidableEq

/-- The `event_body` dict built by `core_update_event` (lines 169-176):
`start`/`end` pair the caller's time with the configured time zone,
`attendees` is the list of attendee e-mail addresses. -/
structure EventBody where
  summary : Option String
  description : Option String
  location : Option String
  start : Option (String × String)
  end_ : Option (String × String)
  attendees : Option (List String)
deriving DecidableEq

/-- The empty `event_body = {}` (the `if not event_body` test). -/
def emptyEventBody : EventBody := ⟨none, none, none, none, none, none⟩

/-- Lines 169-176: build the sparse patch from the `updates` dict; a field
is set exactly when its key is present, except `attendees`, which is also
skipped when its value is `None`. -/
def buildEventBody (tz : String) (u : Updates) : EventBody :=
  ⟨u.summary, u.description, u.location,
   u.start_time.map (fun t => (t, tz)),
   u.end_time.map (fun t => (t, tz)),
   match u.attendees with
   | some (some l) => some l
   | _ => none⟩

/-- An exception raised by `core_update_event`: the `ValueError` for a 404
on the initial fetch, or the re-raised `HttpError`. -/
inductive UpdateErr where
  | valueError (msg : String)
  | httpError (status : Nat)
deriving DecidableEq

/-- What `core_update_event` did on success: returned the fetched event
without issuing any patch (write) call, or issued one patch call with the
recorded body and returned the provider's resulting event. -/
inductive UpdateResult (Event : Type) where
  | noWrite (ev : Event)
  | wrote (body : EventBody) (ev : Event)
deriving DecidableEq

/-- `core_update_event` from `src/calendar/core.py` (lines 154-184): fetch
the existing event (a 404 becomes a `ValueError`, another `HttpError` is
re-raised), build the sparse patch, return the fetched event unchanged if
the patch is empty, otherwise issue the patch and return the provider's
resulting event. -/
def core_update_event {Event : Type} (tz event_id : String)
    (getResult : Except Nat Event) (patchEvent : EventBody → Event)
    (updates : Updates) : Except UpdateErr (UpdateResult Event) :=
  match getResult with
  | .error s =>
    if s = 404 then .error (.valueError ("Événement " ++ event_id ++ " non trouvé."))
    else .error (.httpError s)
  | .ok existing_event =>
    let event_body := buildEventBody tz updates
    if event_body = emptyEventBody then .ok (.noWrite existing_event)
    else .ok (.wrote event_body (patchEvent event_body))

/-- C4 counterexample: the claim states that when at least one recognized
field is present in the patch, a partial update is issued.  With an
`updates` dict containing only the recognized key `attendees` with value
`None`, the source's `is not None` guard skips the field, the patch stays
empty, no write is issued, and the fetched event is returned unchanged. -/
theorem C4_attendees_none_counterexample :
    core_update_event "UTC" "evt1" (Except.ok "existing") (fun _ => "patched")
        ⟨none, none, none, none, none, some none, []⟩ =
      Except.ok (UpdateResult.noWrite "existing") ∧
    (⟨none, none, none, none, none, some none, []⟩ : Updates).attendees ≠ none := by
  exact ⟨rfl, by decide⟩

/-- C4 (amended): when the patch built from the updates is empty — i.e.
none of summary/description/location/start_time/end_time is present and
`attendees` is absent or present with a null value — `core_update_event`
issues no write call and returns the previously fetched event unchanged;
otherwise it issues exactly one partial update whose body contains exactly
the caller-supplied fields and returns the provider's resulting event. -/
theorem C4_update_sparse_patch {Event : Type} (tz event_id : String)
    (existing : Event) (patchEvent : EventBody → Event) (u : Updates) :
    (buildEventBody tz u = emptyEventBody →
      core_update_event tz event_id (Except.ok existing) patchEvent u =
        Except.ok (UpdateResult.noWrite existing)) ∧
    (buildEventBody tz u ≠ emptyEventBody →
      core_update_event tz event_id (Except.ok existing) patchEvent u =
        Except.ok (UpdateResult.wrote (buildEventBody tz u)
          (patchEvent (buildEventBody tz u)))) ∧
    (buildEventBody tz u = emptyEventBody ↔
      (u.summary = none ∧ u.description = none ∧ u.location = none ∧
       u.start_time = none ∧ u.end_time = none ∧
       (u.attendees = none ∨ u.attendees = some none))) ∧
    ((buildEventBody tz u).summary = u.summary ∧
     (buildEventBody tz u).description = u.description ∧
     (buildEventBody tz u).location = u.location ∧
     (buildEventBody tz u).start = u.start_time.map (fun t => (t, tz)) ∧
     (buildEventBody tz u).end_ = u.end_time.map (fun t => (t, tz)) ∧
     (buildEventBody tz u).attendees = u.attendees.join) := by
  obtain ⟨s, d, l, st, en, a, o⟩ := u
  refine ⟨?_, ?_, ?_, ?_⟩
  · intro h
    simp [core_update_event, h]
  · intro h
    simp [core_update_event, h]
  · simp only [buildEventBody, emptyEventBody, EventBody.mk.injEq, Option.map_eq_none]
    simp only [and_congr_right_iff]
    intro _ _ _
    rcases st with _ | v1 <;> rcases en with _ | v2 <;> rcases a with _ | ⟨_ | l2⟩ <;> simp
  · refine ⟨rfl, rfl, rfl, rfl, rfl, ?_⟩
    rcases a with _ | ⟨_ | l2⟩ <;> simp [buildEventBody, Option.join]

theorem C4_update_sparse_patch_witness :
    core_update_event "UTC" "e1" (Except.ok "ex") (fun _ => "patched")
        ⟨none, none, none, none, none, none, []⟩ =
      Except.ok (UpdateResult.noWrite "ex") ∧
    core_update_event "UTC" "e1" (Except.ok "ex") (fun _ => "patched")
        ⟨some "S", none, none, none, none, none, []⟩ =
      Except.ok (UpdateResult.wrote
        (buildEventBody "UTC" ⟨some "S", none, none, none, none, none, []⟩) "patched") :=
  ⟨(C4_update_sparse_patch "UTC" "e1" "ex" (fun _ => "patched") _).1 (by decide),
   (C4_update_sparse_patch "UTC" "e1" "ex" (fun _ => "patched") _).2.1 (by decide)⟩

/-
Email body selection: `_get_email_body` from `src/communication/core.py`
(lines 215-243).  A MIME message is a tree: `leaf` is a non-multipart part
carrying its decoded payload, `multi` is a multipart container.
`email.message.Message.walk()` is the depth-first preorder traversal
(`walkParts`); `scanParts` is the source's `for part in msg_part.walk()`
loop, which breaks at the first `text/html` part and otherwise remembers
the last `text/plain` part seen.  `get_payload(decode=True)` on a
multipart container yields `None` in Python and the subsequent decode
raises, which the source catches leaving `body_content = ""`; this is
`partPayload` returning `none` and `getD ""`.
-/

/-- A parsed MIME part: a non-multipart leaf with its content type and
decoded payload, or a multipart container with its sub-parts. -/
inductive EmailPart where
  | leaf (contentType : String) (payload : String)
  | multi (contentType : String) (parts : List EmailPart)

/-- Python `get_content_type()`. -/
def contentTypeOf : EmailPart → String
  | .leaf ct _ => ct
  | .multi ct _ => ct

mutual

/-- `Message.walk()`: depth-first preorder traversal, yielding the message
itself first and then walking each sub-part recursively. -/
def walkParts : EmailPart → List EmailPart
  | .leaf ct p => [.leaf ct p]
  | .multi ct parts => .multi ct parts :: walkList parts

/-- Walk each element of a list of sub-parts in order. -/
def walkList : List EmailPart → List EmailPart
  | [] => []
  | p :: rest => walkParts p ++ walkList rest

end

/-- `part.get_content_type() == "text/html"`. -/
def isHtmlPart (p : EmailPart) : Bool := contentTypeOf p == "text/html"

/-- `part.get_content_type() == "text/plain"`. -/
def isPlainPart (p : EmailPart) : Bool := contentTypeOf p == "text/plain"

/-- The `for part in msg_part.walk()` loop (lines 221-226): `break` at the
first `text/html` part, else remember the last `text/plain` part seen in
the accumulator; returns the final `(html_part, plain_part)` pair. -/
def scanParts : List EmailPart → Option EmailPart → Option EmailPart × Option EmailPart
  | [], plain_part => (none, plain_part)
  | p :: rest, plain_part =>
    if isHtmlPart p then (some p, plain_part)
    else if isPlainPart p then scanParts rest (some p)
    else scanParts rest plain_part

/-- `get_payload(decode=True)`: the decoded payload of a leaf; `none` for a
multipart container (whose decode attempt raises and is caught, leaving the
empty body). -/
def partPayload : EmailPart → Option String
  | .leaf _ payload => some payload
  | .multi _ _ => none

/-- `_get_email_body` from `src/communication/core.py` (lines 215-243):
for a multipart message, run the walk loop and use `html_part or
plain_part`; for a non-multipart message, use the payload directly exactly
when the content type is `text/plain` or `text/html`, else `""`. -/
def getEmailBody : EmailPart → String
  | .leaf ct payload => if ct = "text/plain" ∨ ct = "text/html" then payload else ""
  | .multi ct parts =>
    match scanParts (walkParts (.multi ct parts)) none with
    | (some target, _) => (partPayload target).getD ""
    | (none, some target) => (partPayload target).getD ""
    | (none, none) => ""

lemma scanParts_fst (l : List EmailPart) (acc : Option EmailPart) :
    (scanParts l acc).1 = l.find? isHtmlPart := by
  induction l generalizing acc with
  | nil => simp [scanParts]
  | cons p rest ih =>
    by_cases h : isHtmlPart p = true
    · simp [scanParts, h, List.find?_cons_of_pos]
    · by_cases h2 : isPlainPart p = true
      · simp [scanParts, h, h2, ih, List.find?_cons_of_neg]
      · simp [scanParts, h, h2, ih, List.find?_cons_of_neg]

lemma getLast?_cons_or {α : Type} (p : α) (xs : List α) :
    (p :: xs).getLast? = xs.getLast?.or (some p) := by
  induction xs generalizing p with
  | nil => simp
  | cons q rest ih =>
    rw [List.getLast?_cons_cons, ih q]
    cases rest.getLast? <;> simp

lemma scanParts_snd_no_html (l : List EmailPart) (acc : Option EmailPart)
    (h : ∀ p ∈ l, isHtmlPart p = false) :
    (scanParts l acc).2 = ((l.filter isPlainPart).getLast?).or acc := by
  induction l generalizing acc with
  | nil => simp [scanParts]
  | cons p rest ih =>
    have hp := h p (List.mem_cons_self p rest)
    have hrest : ∀ q ∈ rest, isHtmlPart q = false :=
      fun q hq => h q (List.mem_cons_of_mem p hq)
    by_cases h2 : isPlainPart p = true
    · rw [List.filter_cons_of_pos h2, getLast?_cons_or]
      simp only [scanParts, hp, h2, if_false, if_true, Bool.false_eq_true]
      rw [ih _ hrest]
      cases hl : ((rest.filter isPlainPart).getLast?) with
      | none => simp
      | some v => simp
    · rw [List.filter_cons_of_neg]
      · simp only [scanParts, hp, h2, Bool.false_eq_true, if_false]
        exact ih _ hrest
      · simp [h2]

/-- C5: for a multipart message, when the depth-first walk contains a
`text/html` part (first such part a leaf with payload `hp`) the selected
body is `hp` — in particular when a `text/plain` part is also present; for
a multipart message with no `text/html` part whose last `text/plain` part
is a leaf with payload `pp`, the selected body is `pp`; for a non-multipart
message the payload is used directly exactly when the content type is
`text/plain` or `text/html`. -/
theorem C5_email_body_selection :
    (∀ (ct : String) (parts : List EmailPart) (hp : String),
      (walkParts (.multi ct parts)).find? isHtmlPart =
          some (.leaf "text/html" hp) →
      (∃ q ∈ walkParts (.multi ct parts), isPlainPart q = true) →
      getEmailBody (.multi ct parts) = hp) ∧
    (∀ (ct : String) (parts : List EmailPart) (pp : String),
      (∀ q ∈ walkParts (.multi ct parts), isHtmlPart q = false) →
      ((walkParts (.multi ct parts)).filter isPlainPart).getLast? =
          some (.leaf "text/plain" pp) →
      getEmailBody (.multi ct parts) = pp) ∧
    (∀ (ct payload : String),
      getEmailBody (.leaf ct payload) =
        if ct = "text/plain" ∨ ct = "text/html" then payload else "") := by
  refine ⟨?_, ?_, ?_⟩
  · intro ct parts hp hfind _
    have h1 : (scanParts (walkParts (.multi ct parts)) none).1 =
        some (.leaf "text/html" hp) := by
      rw [scanParts_fst]
      exact hfind
    rcases hsc : scanParts (walkParts (.multi ct parts)) none with ⟨fst, snd⟩
    rw [hsc] at h1
    simp only at h1
    subst h1
    simp [getEmailBody, hsc, partPayload]
  · intro ct parts pp hnone hlast
    have h1 : (scanParts (walkParts (.multi ct parts)) none).1 = none := by
      rw [scanParts_fst]
      simp only [List.find?_eq_none]
      intro q hq
      simp [hnone q hq]
    have h2 : (scanParts (walkParts (.multi ct parts)) none).2 =
        some (.leaf "text/plain" pp) := by
      rw [scanParts_snd_no_html _ _ hnone, hlast]
      rfl
    rcases hsc : scanParts (walkParts (.multi ct parts)) none with ⟨fst, snd⟩
    rw [hsc] at h1 h2
    simp only at h1 h2
    subst h1
    subst h2
    simp [getEmailBody, hsc, partPayload]
  · intro ct payload
    rfl

/-- A multipart message carrying both a `text/html` and `text/plain` part. -/
def tree1 : EmailPart :=
  .multi "multipart/alternative"
    [.leaf "text/plain" "P1", .leaf "text/html" "H", .leaf "text/plain" "P2"]

/-- A nested multipart message with only `text/plain` leaves. -/
def tree2 : EmailPart :=
  .multi "multipart/mixed"
    [.leaf "text/plain" "P1", .multi "multipart/alternative" [.leaf "text/plain" "P2"]]

theorem C5_email_body_selection_witness :
    getEmailBody tree1 = "H" ∧ getEmailBody tree2 = "P2" := by
  constructor
  · exact C5_email_body_selection.1 _ _ "H" rfl
      ⟨.leaf "text/plain" "P1", by simp [tree1, walkParts, walkList], rfl⟩
  · refine C5_email_body_selection.2.1 _ _ "P2" ?_ rfl
    intro q hq
    simp [tree2, walkParts, walkList] at hq
    rcases hq with h | h | h | h <;> subst h <;> rfl

/-
Calendar event deletion: `core_delete_event` from `src/calendar/core.py`
(lines 186-202).  The provider's `events().delete(...)` call is modelled by
its outcome: success, a raised `HttpError` with its status, or another
exception.  `providerDelete` is the standard environment model of a
calendar that responds 404 exactly when the event id is absent and removes
the event on a successful delete.
-/

/-- Outcome of the provider's `events().delete(...).execute()` call. -/
inductive DeleteOutcome where
  | ok
  | httpErr (status : Nat)
  | otherErr
deriving DecidableEq

/-- An exception re-raised by `core_delete_event`. -/
inductive DeleteErr where
  | httpError (status : Nat)
  | otherError
deriving DecidableEq

/-- `core_delete_event` from `src/calendar/core.py` (lines 186-202):
success returns `True`; an `HttpError` with status 404 returns `False`;
any other `HttpError` and any other exception are re-raised. -/
def core_delete_event (deleteResult : DeleteOutcome) : Except DeleteErr Bool :=
  match deleteResult with
  | .ok => .ok true
  | .httpErr s => if s = 404 then .ok false else .error (.httpError s)
  | .otherErr => .error .otherError

/-- A calendar provider that deletes an existing event and responds 404
for an absent event id. -/
def providerDelete (cal : List String) (event_id : String) :
    DeleteOutcome × List String :=
  if cal.contains event_id then (.ok, cal.erase event_id) else (.httpErr 404, cal)

/-- C6: deleting a nonexistent remote event (provider responds 404)
returns `false` and raises no exception, while a successful delete returns
`true`; against a provider that responds 404 for absent ids, a delete and
an immediately repeated delete of the same id both complete without
raising — deletion is idempotent. -/
theorem C6_delete_idempotent :
    core_delete_event (DeleteOutcome.httpErr 404) = Except.ok false ∧
    core_delete_event DeleteOutcome.ok = Except.ok true ∧
    (∀ (cal : List String) (event_id : String),
      core_delete_event (providerDelete cal event_id).1 =
        Except.ok (cal.contains event_id) ∧
      (core_delete_event (providerDelete cal event_id).1).isOk = true ∧
      (core_delete_event
          (providerDelete (providerDelete cal event_id).2 event_id).1).isOk = true) := by
  refine ⟨rfl, rfl, ?_⟩
  intro cal event_id
  by_cases h : event_id ∈ cal
  · by_cases h2 : event_id ∈ cal.erase event_id <;>
      simp [providerDelete, core_delete_event, h, h2, Except.isOk, Except.toBool]
  · simp [providerDelete, core_delete_event, h, Except.isOk, Except.toBool]

/-
Video-id extraction: `extract_video_id` and `validate_video_url` from
`src/youtube/utils.py` (lines 7-52).  Strings are modelled as their lists
of characters.  `pySplit` is Python `str.split(sep)` for a non-empty
separator: scan left to right, cut at each non-overlapping occurrence of
the separator; the fuel argument (the length of the string) makes the
recursion structural and never runs out before the string is consumed.
-/

/-- Python `s.split(sep)` (non-empty `sep`), with explicit fuel; `acc` is
the current chunk, reversed. -/
def pySplitAux (sep : List Char) : Nat → List Char → List Char → List (List Char)
  | 0, s, acc => [acc.reverse ++ s]
  | fuel + 1, s, acc =>
    match s with
    | [] => [acc.reverse]
    | c :: rest =>
      if sep.isPrefixOf (c :: rest) then
        acc.reverse :: pySplitAux sep fuel ((c :: rest).drop sep.length) []
      else pySplitAux sep fuel rest (c :: acc)

/-- Python `s.split(sep)` for a non-empty separator. -/
def pySplit (sep s : List Char) : List (List Char) :=
  pySplitAux sep s.length s []

/-- The watch-URL shape recognized at `src/youtube/utils.py` line 29. -/
def watchStart : List Char := "https://www.youtube.com/watch?v=".data

/-- The short-URL shape recognized at `src/youtube/utils.py` line 32. -/
def shortStart : List Char := "https://youtu.be/".data

/-- `extract_video_id` from `src/youtube/utils.py` (lines 7-36): an empty
URL raises `YouTubeError` (modelled as `Except.error` with the source's
message); a watch URL yields `url.split("v=")[1].split("&")[0]`; a short
URL yields `url.split("youtu.be/")[1]`; any other string is returned
unchanged.  (In the two recognized branches the separator always occurs,
so index 1 exists and the `getD`/`headD` defaults never fire.) -/
def extract_video_id (url : List Char) : Except (List Char) (List Char) :=
  if url = [] then .error ("URL cannot be empty".data)
  else if watchStart.isPrefixOf url then
    .ok ((pySplit ("&".data) ((pySplit ("v=".data) url).getD 1 [])).headD [])
  else if shortStart.isPrefixOf url then
    .ok ((pySplit ("youtu.be/".data) url).getD 1 [])
  else .ok url

/-- `validate_video_url` from `src/youtube/utils.py` (lines 38-52): run
the same extraction, discard its result, and report whether it raised. -/
def validate_video_url (url : List Char) : Bool :=
  match extract_video_id url with
  | .ok _ => true
  | .error _ => false

/-- C7 counterexample: the claim states that every input not matching the
two recognized URL shapes is returned unchanged with no validation
performed.  The empty string matches neither shape, yet
`extract_video_id` raises `YouTubeError("URL cannot be empty")` instead of
returning it unchanged, and `validate_video_url` reports `false` for it. -/
theorem C7_empty_url_counterexample :
    extract_video_id [] ≠ Except.ok [] ∧
    extract_video_id [] = Except.error ("URL cannot be empty".data) ∧
    validate_video_url [] = false := by
  refine ⟨?_, rfl, rfl⟩
  simp [extract_video_id]

/-- C7 (amended): `extract_video_id` maps
`"https://www.youtube.com/watch?v=abc123&t=5"` to `"abc123"` and
`"https://youtu.be/abc123"` to `"abc123"`; every other *non-empty* input
string is returned unchanged as an assumed bare ID with no validation
performed (the empty string instead raises `YouTubeError`);
`validate_video_url` returns a boolean by running the same extraction and
discarding its result, hence `true` exactly on non-empty input. -/
theorem C7_extract_video_id_spec :
    extract_video_id ("https://www.youtube.com/watch?v=abc123&t=5".data) =
      Except.ok ("abc123".data) ∧
    extract_video_id ("https://youtu.be/abc123".data) = Except.ok ("abc123".data) ∧
    (∀ url : List Char, url ≠ [] →
      watchStart.isPrefixOf url = false →
      shortStart.isPrefixOf url = false →
      extract_video_id url = Except.ok url) ∧
    (∀ url : List Char, validate_video_url url = (extract_video_id url).isOk) ∧
    (∀ url : List Char, url ≠ [] → validate_video_url url = true) := by
  refine ⟨rfl, rfl, ?_, ?_, ?_⟩
  · intro url h h1 h2
    simp [extract_video_id, h, h1, h2]
  · intro url
    cases h : extract_video_id url <;>
      simp [validate_video_url, h, Except.isOk, Except.toBool]
  · intro url h
    unfold validate_video_url
    simp only [extract_video_id, if_neg h]
    by_cases h1 : watchStart.isPrefixOf url <;>
      by_cases h2 : shortStart.isPrefixOf url <;> simp [h1, h2]

theorem C7_extract_video_id_spec_witness :
    extract_video_id ("abc123".data) = Except.ok ("abc123".data) ∧
    validate_video_url ("abc123".data) = true :=
  ⟨C7_extract_video_id_spec.2.2.1 _ (by decide) (by decide) (by decide),
   C7_extract_video_id_spec.2.2.2.2 _ (by decide)⟩

/-
Outgoing email: `EmailClient.send_email` from `src/communication/core.py`
(lines 145-199).  The Python parameter `to` is rendered `toRecip` here
(`to` is a reserved token in Lean); `cc`/`bcc`/`attachments` keep their
`Optional[List[str]]` shape, Python truthiness of an optional list being
`truthyList`.  The file system is a predicate `fileExists` (a present
attachment whose read fails is logged and skipped just like a missing one,
so the predicate covers both).  The SMTP session is modelled by its result
(`SmtpResult`); connection details (port 465 vs `starttls`) do not affect
the constructed message, envelope, or response dict.  The outcome records
the constructed headers (in order), the detected body subtype, the
attachment names actually embedded, the envelope recipient list passed as
`to_addrs`, and the returned response dict.
-/

/-- The markup markers of line 157 whose presence (case-insensitive)
selects the `html` body subtype. -/
def htmlMarkers : List (List Char) := ["<html".data, "<body".data, "<div".data, "<br".data]

/-- Python substring test `needle in hay`. -/
def containsSub (needle hay : List Char) : Bool :=
  match hay with
  | [] => needle.isEmpty
  | _ :: rest => needle.isPrefixOf hay || containsSub needle rest

/-- Python `", ".join(l)`. -/
def joinComma (l : List String) : String := String.intercalate ", " l

/-- Python truthiness of an `Optional[List[str]]`: `None` and `[]` are
falsy. -/
def truthyList (o : Option (List String)) : Bool := !(o.getD []).isEmpty

/-- The message constructed by `send_email`: its headers in the order they
are set (lines 151-155), the body subtype (line 157), and the base names of
the attachments actually embedded (lines 160-173). -/
structure BuiltEmail where
  headers : List (String × String)
  bodySubtype : String
  attachedNames : List String
deriving DecidableEq

/-- The dict returned by `send_email` (lines 191, 195, 199): the success
dict with its `to`/`cc`/`bcc`/`subject`/`attachment_count` fields, or a
failure dict with its error string. -/
inductive SendResponse where
  | ok (toRecip ccRecip bccRecip : List String) (subject : String) (attachment_count : Nat)
  | err (error : String)
deriving DecidableEq

/-- Result of the SMTP submission block (lines 179-189): success, an
`SMTPAuthenticationError`, or another exception. -/
inductive SmtpResult where
  | ok
  | authError (e : String)
  | otherError (e : String)
deriving DecidableEq

/-- Observable behaviour of one `send_email` call: rejected up front for an
empty recipient list (line 149, before any message is built), or a message
built and submitted with the recorded envelope and response. -/
inductive SendOutcome where
  | refused (response : SendResponse)
  | attempted (msg : BuiltEmail) (envelope : List String) (response : SendResponse)
deriving DecidableEq

/-- `EmailClient.send_email` from `src/communication/core.py`
(lines 145-199). -/
def send_email (sender : String) (toRecip : List String) (subject body : String)
    (cc bcc attachments : Option (List String))
    (fileExists : String → Bool) (smtp : SmtpResult) : SendOutcome :=
  if toRecip.isEmpty then .refused (.err "Aucun destinataire spécifié")
  else
    let headers :=
      [("From", sender), ("To", joinComma toRecip), ("Subject", subject)] ++
        (if truthyList cc then [("Cc", joinComma (cc.getD []))] else [])
    let subtype :=
      if htmlMarkers.any (fun t => containsSub t (body.data.map Char.toLower)) then "html"
      else "plain"
    let attached := (attachments.getD []).filter fileExists
    let all_recipients :=
      toRecip ++ (if truthyList cc then cc.getD [] else []) ++
        (if truthyList bcc then bcc.getD [] else [])
    let response :=
      match smtp with
      | .ok => SendResponse.ok toRecip (cc.getD []) (bcc.getD []) subject
          (if truthyList attachments then (attachments.getD []).length else 0)
      | .authError e => .err ("Authentification SMTP échouée pour " ++ sender ++ ": " ++ e)
      | .otherError e => .err ("Erreur SMTP lors de l\x27envoi: " ++ e)
    .attempted ⟨headers, subtype, attached⟩ all_recipients response

/-- The envelope recipient list (`to_addrs`) submitted to SMTP. -/
def envelopeOf : SendOutcome → List String
  | .refused _ => []
  | .attempted _ env _ => env

/-- The names of the headers set on the constructed message. -/
def headerKeysOf : SendOutcome → List String
  | .refused _ => []
  | .attempted msg _ _ => msg.headers.map Prod.fst

/-- The response dict returned to the caller. -/
def responseOf : SendOutcome → SendResponse
  | .refused r => r
  | .attempted _ _ r => r

/-- The attachments actually embedded in the constructed message. -/
def attachedNamesOf : SendOutcome → List String
  | .refused _ => []
  | .attempted msg _ _ => msg.attachedNames

/-- The `attachment_count` field of a success response. -/
def attachmentCountOf : SendResponse → Option Nat
  | .ok _ _ _ _ n => some n
  | .err _ => none

lemma truthy_branch (o : Option (List String)) :
    (if truthyList o then o.getD [] else []) = o.getD [] := by
  by_cases h : truthyList o = true
  · rw [if_pos h]
  · rw [if_neg h]
    rcases o with _ | l
    · rfl
    · simp [truthyList] at h
      simp [h]

/-- C8: for every outgoing email built by `send_email`, the envelope
recipient list supplied to the SMTP submission is exactly the
concatenation To ++ Cc ++ Bcc, and the constructed message carries exactly
the headers From, To, Subject and (when a non-empty Cc was supplied) Cc —
in particular no `Bcc` header is ever set, so no Bcc address appears in
any header. -/
theorem C8_envelope_and_headers (sender : String) (toRecip : List String)
    (subject body : String) (cc bcc attachments : Option (List String))
    (fileExists : String → Bool) (smtp : SmtpResult) (h : toRecip ≠ []) :
    envelopeOf (send_email sender toRecip subject body cc bcc attachments fileExists smtp) =
      toRecip ++ cc.getD [] ++ bcc.getD [] ∧
    headerKeysOf (send_email sender toRecip subject body cc bcc attachments fileExists smtp) =
      ["From", "To", "Subject"] ++ (if truthyList cc then ["Cc"] else []) ∧
    "Bcc" ∉ headerKeysOf (send_email sender toRecip subject body cc bcc attachments fileExists smtp) := by
  have hne : toRecip.isEmpty = false := by
    rcases toRecip with _ | ⟨a, rest⟩
    · exact absurd rfl h
    · rfl
  refine ⟨?_, ?_, ?_⟩
  · simp [send_email, hne, envelopeOf, truthy_branch]
  · by_cases hc : truthyList cc = true <;>
      simp [send_email, hne, headerKeysOf, hc]
  · by_cases hc : truthyList cc = true <;>
      simp [send_email, hne, headerKeysOf, hc]

theorem C8_envelope_and_headers_witness :
    envelopeOf (send_email "me" ["a"] "s" "b" (some ["c"]) (some ["d"]) none
        (fun _ => true) SmtpResult.ok) = ["a", "c", "d"] ∧
    headerKeysOf (send_email "me" ["a"] "s" "b" (some ["c"]) (some ["d"]) none
        (fun _ => true) SmtpResult.ok) = ["From", "To", "Subject", "Cc"] ∧
    "Bcc" ∉ headerKeysOf (send_email "me" ["a"] "s" "b" (some ["c"]) (some ["d"]) none
        (fun _ => true) SmtpResult.ok) := by
  have h := C8_envelope_and_headers "me" ["a"] "s" "b" (some ["c"]) (some ["d"]) none
    (fun _ => true) SmtpResult.ok (by simp)
  refine ⟨?_, ?_, h.2.2⟩
  · simpa using h.1
  · simpa using h.2.1

/-- C10 (implicit): when `send_email` returns a success result, its
`attachment_count` field equals the length of the `attachments` argument
as supplied by the caller (0 when absent), even though the message embeds
only the attachments whose file exists — so `attachment_count` can exceed
the number of attachments actually embedded. -/
theorem C10_attachment_count (sender : String) (toRecip : List String)
    (subject body : String) (cc bcc attachments : Option (List String))
    (fileExists : String → Bool) (h : toRecip ≠ []) :
    attachmentCountOf (responseOf
        (send_email sender toRecip subject body cc bcc attachments fileExists SmtpResult.ok)) =
      some ((attachments.getD []).length) ∧
    attachedNamesOf
        (send_email sender toRecip subject body cc bcc attachments fileExists SmtpResult.ok) =
      (attachments.getD []).filter fileExists := by
  have hne : toRecip.isEmpty = false := by
    rcases toRecip with _ | ⟨a, rest⟩
    · exact absurd rfl h
    · rfl
  constructor
  · by_cases ha : truthyList attachments = true
    · simp [send_email, hne, responseOf, attachmentCountOf, ha]
    · rcases attachments with _ | l
      · simp [send_email, hne, responseOf, attachmentCountOf, ha]
      · simp [truthyList] at ha
        simp [send_email, hne, responseOf, attachmentCountOf, truthyList, ha]
  · simp [send_email, hne, attachedNamesOf]

theorem C10_attachment_count_witness :
    attachmentCountOf (responseOf (send_email "s" ["r"] "subj" "b" none none
        (some ["/a", "/b"]) (fun _ => false) SmtpResult.ok)) = some 2 ∧
    attachedNamesOf (send_email "s" ["r"] "subj" "b" none none
        (some ["/a", "/b"]) (fun _ => false) SmtpResult.ok) = [] := by
  have h := C10_attachment_count "s" ["r"] "subj" "b" none none (some ["/a", "/b"])
    (fun _ => false) (by simp)
  refine ⟨by simpa using h.1, by simpa using h.2⟩

/-
Tool boundary (C9): the nine tool entry points from
`src/communication/tool.py`, `src/calendar/tool.py` and
`src/youtube/tool.py`.  Each tool is modelled as a *total* function from
its arguments and the outcome of its underlying core/client call (an
`Except`: a returned value or a raised exception) to the returned text —
totality is exactly the boundary contract, every raised exception being
converted to a returned value.  Returned text is modelled as `List Char`;
the per-call plumbing that cannot raise (pure rendering of the fetched
records) is a `render` parameter.  `errMarked` is the `"Erreur"` prefix
used by every generic catch-all message; `failureText` also accepts the
`"Échec"` prefix of the email-failure message and the `" non trouvé."`
suffix of the update tool's not-found message (the `str(ve)` of the
`ValueError` raised by `core_update_event`).
-/

/-- The returned text begins with the error marker `"Erreur"`. -/
def errMarked (s : List Char) : Bool := "Erreur".data.isPrefixOf s

/-- The returned text carries a failure marker: the `"Erreur"` prefix, the
`"Échec"` prefix, or the `" non trouvé."` not-found suffix. -/
def failureText (s : List Char) : Bool :=
  "Erreur".data.isPrefixOf s || "Échec".data.isPrefixOf s ||
    " non trouvé.".data.isSuffixOf s

lemma isPrefixOf_append_left (p a b : List Char) (h : p.isPrefixOf a = true) :
    p.isPrefixOf (a ++ b) = true := by
  rw [List.isPrefixOf_iff_prefix] at h ⊢
  exact h.trans (List.prefix_append a b)

lemma errMarked_append (a b : List Char) (h : errMarked a = true) :
    errMarked (a ++ b) = true :=
  isPrefixOf_append_left _ a b h

lemma failureText_append_pre (a b : List Char)
    (h : "Erreur".data.isPrefixOf a = true ∨ "Échec".data.isPrefixOf a = true) :
    failureText (a ++ b) = true := by
  rcases h with h | h <;> simp [failureText, isPrefixOf_append_left _ a b h]

lemma isSuffixOf_append_right (p a b : List Char) (h : p.isSuffixOf b = true) :
    p.isSuffixOf (a ++ b) = true := by
  rw [List.isSuffixOf_iff_suffix] at h ⊢
  exact h.trans (List.suffix_append a b)

lemma failureText_append_suf (a b : List Char)
    (h : " non trouvé.".data.isSuffixOf b = true) :
    failureText (a ++ b) = true := by
  simp [failureText, isSuffixOf_append_right _ a b h]

/-- `envoyer_message_whatsapp` from `src/communication/tool.py` (lines 24-64):
argument guards, then `get_whatsapp_client()` (whose `ValueError` is caught
as a configuration error), then `send_message` (whose raised exception is
caught by the generic catch-all); `sendResult`'s value is the optional
`chat_id` of the response dict. -/
def envoyer_message_whatsapp (defaultAccount accountArg phone_number message : List Char)
    (clientConfig : Except (List Char) Unit)
    (sendResult : Except (List Char) (Option (List Char))) : List Char :=
  if defaultAccount = [] ∧ accountArg = [] then
    "Erreur: Aucun ID de compte WhatsApp configuré par défaut ou fourni.".data
  else if phone_number = [] ∨ message = [] then
    "Erreur: Le numéro de téléphone et le message sont requis.".data
  else
    let cleaned := format_phone_number phone_number
    if cleaned = [] ∨ cleaned.length < 8 then
      "Erreur: Numéro de téléphone \x27".data ++ phone_number ++
        "\x27 invalide après formatage: \x27".data ++ cleaned ++ "\x27.".data
    else
      match clientConfig with
      | .error ve => "Erreur de configuration WhatsApp: ".data ++ ve
      | .ok _ =>
        match sendResult with
        | .ok (some chat_id) =>
          "Message WhatsApp envoyé à ".data ++ cleaned ++ ". ID du Chat: ".data ++ chat_id
        | .ok none => "Message WhatsApp envoyé, mais aucun ID de chat retourné.".data
        | .error e => "Erreur lors de l\x27envoi du message WhatsApp: ".data ++ e

/-- `repondre_chat_whatsapp` from `src/communication/tool.py` (lines 66-96). -/
def repondre_chat_whatsapp (defaultAccount chat_id message : List Char)
    (clientConfig : Except (List Char) Unit)
    (sendResult : Except (List Char) (Option (List Char))) : List Char :=
  if defaultAccount = [] then
    "Erreur: Aucun ID de compte WhatsApp configuré par défaut.".data
  else if chat_id = [] ∨ message = [] then
    "Erreur: L\x27ID du chat et le message sont requis.".data
  else
    match clientConfig with
    | .error ve => "Erreur de configuration WhatsApp: ".data ++ ve
    | .ok _ =>
      match sendResult with
      | .ok (some msg_id) =>
        "Réponse envoyée au chat WhatsApp ".data ++ chat_id ++ ". ID du Message: ".data ++ msg_id
      | .ok none => "Réponse WhatsApp envoyée, mais aucun ID de message retourné.".data
      | .error e => "Erreur lors de la réponse au chat WhatsApp: ".data ++ e

/-- `envoyer_email` from `src/communication/tool.py` (lines 98-134); named
`envoyer_email_tool` here to keep it distinct from the client method
`send_email`.  `callResult` is the raised exception or the returned
response dict of `EmailClient.send_email`. -/
def envoyer_email_tool (toRecip : List (List Char)) (subject body : List Char)
    (clientConfig : Except (List Char) Unit)
    (callResult : Except (List Char) SendResponse) : List Char :=
  if toRecip.isEmpty then "Erreur: Au moins un destinataire (to) est requis.".data
  else if subject = [] ∨ body = [] then
    "Erreur: Le sujet et le corps du message sont requis.".data
  else
    match clientConfig with
    | .error ve => "Erreur de configuration Email: ".data ++ ve
    | .ok _ =>
      match callResult with
      | .error e => "Erreur lors de l\x27envoi de l\x27email: ".data ++ e
      | .ok (SendResponse.ok t c b _ n) =>
        "Email envoyé à ".data ++ (Nat.repr (t.length + c.length + b.length)).data ++
          " destinataire(s)".data ++
          (if n > 0 then " avec ".data ++ (Nat.repr n).data ++ " pièce(s) jointe(s)".data
           else []) ++
          ". Sujet: ".data ++ subject
      | .ok (SendResponse.err e) => "Échec de l\x27envoi de l\x27email: ".data ++ e.data

/-- `recuperer_emails` from `src/communication/tool.py` (lines 136-179):
`callResult` is the raised exception or the list of fetched email records
(pre-rendered); the non-raising digest formatting is the `render`
parameter. -/
def recuperer_emails_tool (folder : List Char)
    (clientConfig : Except (List Char) Unit)
    (callResult : Except (List Char) (List (List Char)))
    (render : List (List Char) → List Char) : List Char :=
  match clientConfig with
  | .error ve => "Erreur de configuration Email: ".data ++ ve
  | .ok _ =>
    match callResult with
    | .error e => "Erreur lors de la récupération des emails: ".data ++ e
    | .ok [] => "Aucun email trouvé dans le dossier \x27".data ++ folder ++
        "\x27 avec les critères spécifiés.".data
    | .ok emails => render emails

/-- `lister_evenements_calendrier` from `src/calendar/tool.py`
(lines 35-70). -/
def lister_evenements_calendrier (callResult : Except (List Char) (List (List Char)))
    (render : List (List Char) → List Char) : List Char :=
  match callResult with
  | .error e => "Erreur lors de la récupération des événements: ".data ++ e
  | .ok [] => "Aucun événement à venir trouvé.".data
  | .ok events => render events

/-- `creer_evenement_calendrier` from `src/calendar/tool.py`
(lines 72-105); the success value is the created event's (summary, id). -/
def creer_evenement_calendrier
    (callResult : Except (List Char) (List Char × List Char)) : List Char :=
  match callResult with
  | .error e => "Erreur lors de la création de l\x27événement: ".data ++ e
  | .ok (summary, event_id) =>
    "Événement \x27".data ++ summary ++ "\x27 créé avec succès. ID: ".data ++ event_id

/-- Exception raised by the wrapped `core_update_event` call as seen from
the update tool: the `ValueError` of the not-found case (caught
separately, its message returned as-is) or any other exception. -/
inductive UpdateCallErr where
  | valueError (msg : List Char)
  | exception (msg : List Char)

/-- `mettre_a_jour_evenement_calendrier` from `src/calendar/tool.py`
(lines 107-146); `updatesEmpty` is the `if not updates` guard, the success
value is the updated event's summary. -/
def mettre_a_jour_evenement_calendrier (event_id : List Char) (updatesEmpty : Bool)
    (callResult : Except UpdateCallErr (List Char)) : List Char :=
  if updatesEmpty then "Aucune information de mise à jour fournie.".data
  else
    match callResult with
    | .ok summary => "Événement \x27".data ++ summary ++ "\x27 (ID: ".data ++ event_id ++
        ") mis à jour avec succès.".data
    | .error (.valueError msg) => msg
    | .error (.exception e) =>
      "Erreur lors de la mise à jour de l\x27événement ".data ++ event_id ++ ": ".data ++ e

/-- `supprimer_evenement_calendrier` from `src/calendar/tool.py`
(lines 148-170). -/
def supprimer_evenement_calendrier (event_id : List Char)
    (callResult : Except (List Char) Bool) : List Char :=
  match callResult with
  | .ok true => "Événement ".data ++ event_id ++ " supprimé avec succès.".data
  | .ok false => "Événement ".data ++ event_id ++ " non trouvé ou déjà supprimé.".data
  | .error e =>
    "Erreur lors de la suppression de l\x27événement ".data ++ event_id ++ ": ".data ++ e

/-- The structured result of the transcript tool
(`src/youtube/schema.py` shape used by `src/youtube/tool.py`). -/
structure TranscriptResponse where
  success : Bool
  transcript : Option (List Char)
  error : Option (List Char)
deriving DecidableEq

/-- Exception raised by `youtube.get_transcript` as seen from the tool:
a `YouTubeError`/`YouTubeAPIError`, or any other exception. -/
inductive TranscriptRaised where
  | known (msg : List Char)
  | unexpected (msg : List Char)

/-- `get_video_transcript` from `src/youtube/tool.py` (lines 13-57):
a returned transcript beginning with `"Erreur"` is classified as a
failure; every raised exception becomes a `success = false` response. -/
def get_video_transcript (callResult : Except TranscriptRaised (List Char)) :
    TranscriptResponse :=
  match callResult with
  | .ok transcript =>
    if "Erreur".data.isPrefixOf transcript then ⟨false, none, some transcript⟩
    else ⟨true, some transcript, none⟩
  | .error (.known e) => ⟨false, none, some e⟩
  | .error (.unexpected e) => ⟨false, none, some ("Erreur inattendue: ".data ++ e)⟩

/-- C9: for every tool entry point (WhatsApp send and reply, email send
and retrieve, calendar list/create/update/delete, transcript lookup) and
every argument assignment, a failing underlying call never propagates: the
tool (a total function here) returns a text string carrying a failure
marker — the `"Erreur"` prefix for every generic catch-all, the `"Échec"`
prefix for the email failure dict, the `" non trouvé."` not-found text for
the update tool's caught `ValueError` — or, for the transcript tool, a
structured result with `success = false` and an error field. -/
theorem C9_tool_boundary :
    (∀ (da aa pn m ve : List Char) (sr : Except (List Char) (Option (List Char))),
      errMarked (envoyer_message_whatsapp da aa pn m (.error ve) sr) = true) ∧
    (∀ (da aa pn m : List Char) (cfg : Except (List Char) Unit) (e : List Char),
      errMarked (envoyer_message_whatsapp da aa pn m cfg (.error e)) = true) ∧
    (∀ (da ci m ve : List Char) (sr : Except (List Char) (Option (List Char))),
      errMarked (repondre_chat_whatsapp da ci m (.error ve) sr) = true) ∧
    (∀ (da ci m : List Char) (cfg : Except (List Char) Unit) (e : List Char),
      errMarked (repondre_chat_whatsapp da ci m cfg (.error e)) = true) ∧
    (∀ (toRecip : List (List Char)) (subject body ve : List Char)
        (cr : Except (List Char) SendResponse),
      errMarked (envoyer_email_tool toRecip subject body (.error ve) cr) = true) ∧
    (∀ (toRecip : List (List Char)) (subject body : List Char)
        (cfg : Except (List Char) Unit) (e : List Char),
      errMarked (envoyer_email_tool toRecip subject body cfg (.error e)) = true) ∧
    (∀ (toRecip : List (List Char)) (subject body e : List Char),
      toRecip ≠ [] → subject ≠ [] → body ≠ [] →
      failureText (envoyer_email_tool toRecip subject body (.ok ())
        (.ok (SendResponse.err ⟨e⟩))) = true) ∧
    (∀ (folder ve : List Char) (cr : Except (List Char) (List (List Char)))
        (render : List (List Char) → List Char),
      errMarked (recuperer_emails_tool folder (.error ve) cr render) = true) ∧
    (∀ (folder e : List Char) (render : List (List Char) → List Char),
      errMarked (recuperer_emails_tool folder (.ok ()) (.error e) render) = true) ∧
    (∀ (e : List Char) (render : List (List Char) → List Char),
      errMarked (lister_evenements_calendrier (.error e) render) = true) ∧
    (∀ e : List Char,
      errMarked (creer_evenement_calendrier (.error e)) = true) ∧
    (∀ event_id e : List Char,
      errMarked (mettre_a_jour_evenement_calendrier event_id false
        (.error (.exception e))) = true) ∧
    (∀ event_id : List Char,
      mettre_a_jour_evenement_calendrier event_id false
          (.error (.valueError (("Événement ".data ++ event_id) ++ " non trouvé.".data))) =
        ("Événement ".data ++ event_id) ++ " non trouvé.".data ∧
      failureText (mettre_a_jour_evenement_calendrier event_id false
        (.error (.valueError (("Événement ".data ++ event_id) ++ " non trouvé.".data)))) = true) ∧
    (∀ event_id e : List Char,
      errMarked (supprimer_evenement_calendrier event_id (.error e)) = true) ∧
    (∀ e : List Char,
      (get_video_transcript (.error (.known e))).success = false ∧
      (get_video_transcript (.error (.known e))).error = some e) ∧
    (∀ e : List Char,
      (get_video_transcript (.error (.unexpected e))).success = false ∧
      (get_video_transcript (.error (.unexpected e))).error ≠ none) ∧
    (∀ t : List Char, "Erreur".data.isPrefixOf t = true →
      (get_video_transcript (.ok t)).success = false) := by
  refine ⟨?_, ?_, ?_, ?_, ?_, ?_, ?_, ?_, ?_, ?_, ?_, ?_, ?_, ?_, ?_, ?_, ?_⟩
  · intro da aa pn m ve sr
    simp only [envoyer_message_whatsapp]
    repeat' split
    all_goals repeat (first | decide | apply errMarked_append)
  · intro da aa pn m cfg e
    rcases cfg with ve | u
    all_goals simp only [envoyer_message_whatsapp]
    all_goals repeat' split
    all_goals repeat (first | decide | apply errMarked_append)
  · intro da ci m ve sr
    simp only [repondre_chat_whatsapp]
    repeat' split
    all_goals repeat (first | decide | apply errMarked_append)
  · intro da ci m cfg e
    rcases cfg with ve | u
    all_goals simp only [repondre_chat_whatsapp]
    all_goals repeat' split
    all_goals repeat (first | decide | apply errMarked_append)
  · intro toRecip subject body ve cr
    simp only [envoyer_email_tool]
    repeat' split
    all_goals repeat (first | decide | apply errMarked_append)
  · intro toRecip subject body cfg e
    rcases cfg with ve | u
    all_goals simp only [envoyer_email_tool]
    all_goals repeat' split
    all_goals repeat (first | decide | apply errMarked_append)
  · intro toRecip subject body e h1 h2 h3
    have hne : toRecip.isEmpty = false := by
      rcases toRecip with _ | _
      · exact absurd rfl h1
      · rfl
    unfold envoyer_email_tool
    rw [hne]
    simp only [Bool.false_eq_true, if_false, h2, h3, or_self]
    exact failureText_append_pre _ _ (Or.inr (by decide))
  · intro folder ve cr render
    simp only [recuperer_emails_tool]
    repeat (first | decide | apply errMarked_append)
  · intro folder e render
    simp only [recuperer_emails_tool]
    repeat (first | decide | apply errMarked_append)
  · intro e render
    simp only [lister_evenements_calendrier]
    repeat (first | decide | apply errMarked_append)
  · intro e
    simp only [creer_evenement_calendrier]
    repeat (first | decide | apply errMarked_append)
  · intro event_id e
    simp only [mettre_a_jour_evenement_calendrier, Bool.false_eq_true, if_false]
    repeat (first | decide | apply errMarked_append)
  · intro event_id
    refine ⟨rfl, ?_⟩
    exact failureText_append_suf _ _ (by decide)
  · intro event_id e
    simp only [supprimer_evenement_calendrier]
    repeat (first | decide | apply errMarked_append)
  · intro e
    exact ⟨rfl, rfl⟩
  · intro e
    refine ⟨rfl, by simp [get_video_transcript]⟩
  · intro t h
    simp [get_video_transcript, h]

theorem C9_tool_boundary_witness :
    failureText (envoyer_email_tool ["a".data] "s".data "b".data (.ok ())
      (.ok (SendResponse.err "x"))) = true ∧
    (get_video_transcript (.ok ("Erreur API: boom".data))).success = false := by
  constructor
  · exact C9_tool_boundary.2.2.2.2.2.2.1 _ _ _ _ (by decide) (by decide) (by decide)
  · exact C9_tool_boundary.2.2.2.2.2.2.2.2.2.2.2.2.2.2.2.2 _ (by decide)

end AgentTools
